import Mathlib

/-!
Verification of the heyGenInteractiveServer media-session bridge
(src/mediasoupServer.ts, two revisions) against its natural-language
specification.  The TypeScript data model and operations are shallowly
embedded as executable Lean definitions; machine behaviour such as JS
truthiness (`x || d`) and crashes from reading properties of `undefined`
is made explicit.
-/

namespace HeyGenBridge

/-- One entry of a parsed media section's RTP payload list
(sdp-transform `media.rtp[i]`): `a=rtpmap:<payload> <codec>/<rate>[/<encoding>]`. -/
structure RtpCodecEntry where
  payload : Nat
  codec : String
  rate : Option Nat
  encoding : Option Nat
deriving DecidableEq, Repr

/-- One format-parameter entry (sdp-transform `media.fmtp[i]`). -/
structure FmtpEntry where
  payload : Nat
  config : String
deriving DecidableEq, Repr

/-- One RTCP feedback entry (sdp-transform `media.rtcpFb[i]`). -/
structure RtcpFbEntry where
  payload : Nat
  type : String
  subtype : Option String
deriving DecidableEq, Repr

/-- One SSRC attribute (sdp-transform `media.ssrcs[i]`). -/
structure SsrcEntry where
  id : Nat
  attr : String
  value : Option String
deriving DecidableEq, Repr

/-- One header-extension entry (sdp-transform `media.ext[i]`). -/
structure ExtEntry where
  value : Nat
  uri : String
deriving DecidableEq, Repr

/-- A parsed SDP media section (sdp-transform `MediaDescription`), with the
fields the bridge reads.  Optional lists model fields that may be absent
(`undefined`) on the JS object. -/
structure MediaSection where
  type : String
  mid : Option String
  rtp : Option (List RtpCodecEntry)
  fmtp : Option (List FmtpEntry)
  rtcpFb : Option (List RtcpFbEntry)
  ssrcs : Option (List SsrcEntry)
  ext : Option (List ExtEntry)
deriving DecidableEq, Repr

/-- A reduced RTCP feedback descriptor `{type, parameter}`. -/
structure RtcpFeedbackItem where
  type : String
  parameter : String
deriving DecidableEq, Repr

/-- A built codec descriptor (mediasoup `RtpCodecParameters`). -/
structure RtpCodec where
  mimeType : String
  payloadType : Nat
  clockRate : Nat
  channels : Nat
  parameters : List (String × String)
  rtcpFeedback : List RtcpFeedbackItem
deriving DecidableEq, Repr

/-- A built header-extension descriptor. -/
structure RtpHeaderExtension where
  uri : String
  id : Nat
  encrypt : Bool
  parameters : List (String × String)
deriving DecidableEq, Repr

/-- One encoding descriptor; `ssrc` is optional. -/
structure RtpEncoding where
  ssrc : Option Nat
deriving DecidableEq, Repr

/-- The `rtcp` field of RtpParameters. -/
structure RtcpInfo where
  cname : String
deriving DecidableEq, Repr

/-- The forwarding descriptor produced by the translator
(mediasoup `RtpParameters`). -/
structure RtpParameters where
  mid : Option String
  codecs : List RtpCodec
  headerExtensions : List RtpHeaderExtension
  encodings : List RtpEncoding
  rtcp : RtcpInfo
deriving DecidableEq, Repr

/-- Errors thrown by the embedded operations.  `typeError` stands for an
untyped JavaScript `TypeError` (reading a property of `undefined`); the
other constructors stand for the `new Error(...)` values the source throws
deliberately, i.e. the spec's typed error taxonomy. -/
inductive JsError where
  | typeError
  | noMediaSection (kind : String)
  | noRtpParameters (kind : String)
  | unsupportedCodec (kind : String)
  | transportNotFound (id : String)
  | consumerNotFound (id : String)
  | transportAlreadyConnected
  | cannotConsume
deriving DecidableEq, Repr

deriving instance DecidableEq for Except

/-- JavaScript `String.prototype.toLowerCase`, modelled for the ASCII
strings that occur in SDP mimeTypes (uppercase letters are shifted into
lowercase, all other characters kept). -/
def charToLower (c : Char) : Char :=
  if 'A' ≤ c ∧ c ≤ 'Z' then Char.ofNat (c.toNat + 32) else c

/-- String version of `charToLower`, applied character by character. -/
def strToLower (s : String) : String :=
  ⟨s.data.map charToLower⟩

/-- JavaScript `split('/')`: the string cut at every slash. -/
def splitSlashAux : List Char → List Char → List String
  | [], acc => [⟨acc.reverse⟩]
  | c :: cs, acc =>
    if c = '/' then ⟨acc.reverse⟩ :: splitSlashAux cs []
    else splitSlashAux cs (c :: acc)

/-- String entry point of `splitSlashAux`. -/
def splitSlash (s : String) : List String := splitSlashAux s.data []

/-- JavaScript numeric `x || d`: `0`, like `undefined`, is falsy. -/
def jsOrNat (x : Option Nat) (d : Nat) : Nat :=
  match x with
  | some n => if n = 0 then d else n
  | none => d

/-- Models the external sdp-transform `parseParams` helper: the
format-parameters string is split on semicolons and each `key=value`
pair is recorded.  Only its application point matters to the claims
(both sides of every theorem use this same function). -/
def parseParams (s : String) : List (String × String) :=
  ((s.splitOn ";").map String.trim).foldl
    (fun acc expr =>
      match expr.splitOn "=" with
      | [] => acc
      | [k] => if expr.length > 1 then acc ++ [(k, "")] else acc
      | k :: rest => acc ++ [(k, String.intercalate "=" rest)])
    []

/-- The per-entry codec build shared by both source revisions
(`mediasoupServer.ts`, codec loop): mimeType from the section kind and the
entry's codec name, `codec.rate || 0`, `codec.encoding || 1`, parameters
from the fmtp entry whose payload matches, feedback filtered by payload
and reduced to `{type, parameter: subtype || ''}`. -/
def buildCodec (kindStr : String) (sec : MediaSection) (entry : RtpCodecEntry) : RtpCodec :=
  { mimeType := kindStr ++ "/" ++ entry.codec
    payloadType := entry.payload
    clockRate := jsOrNat entry.rate 0
    channels := jsOrNat entry.encoding 1
    parameters :=
      match (sec.fmtp.getD []).find? (fun f => f.payload == entry.payload) with
      | some f => parseParams f.config
      | none => []
    rtcpFeedback :=
      ((sec.rtcpFb.getD []).filter (fun fb => fb.payload == entry.payload)).map
        (fun fb => { type := fb.type, parameter := fb.subtype.getD "" }) }

/-- Source: `mediaSection.ssrcs?.find(s => s.attribute === 'cname')?.value || ''`. -/
def cnameOf (sec : MediaSection) : String :=
  match (sec.ssrcs.getD []).find? (fun s => s.attr == "cname") with
  | some s => s.value.getD ""
  | none => ""

/-- Source: `media.ssrcs?.[0]?.id ? Number(media.ssrcs[0].id) : undefined` —
the first SSRC attribute's id when truthy (present and nonzero). -/
def ssrcOf (sec : MediaSection) : Option Nat :=
  match (sec.ssrcs.getD []).head? with
  | some s => if s.id = 0 then none else some s.id
  | none => none

/-- Source: `(media.ext || []).map(ext => ({uri, id: ext.value, encrypt: false, parameters: {}}))`. -/
def buildHeaderExtensions (sec : MediaSection) : List RtpHeaderExtension :=
  (sec.ext.getD []).map (fun e =>
    { uri := e.uri, id := e.value, encrypt := false, parameters := [] })

/-- The mimeType kind lookup of `extractRtpParameters` (revision with the
recording pipeline): `this.remoteSdp?.media.find(m => m === mediaSection)?.type`
interpolated into a template literal, so a failed lookup yields the string
`"undefined"`. -/
def findKindIn (remoteMedia : List MediaSection) (sec : MediaSection) : String :=
  match remoteMedia.find? (fun m => decide (m = sec)) with
  | some m => m.type
  | none => "undefined"

/-- Function `extractRtpParameters(mediaSection)` from the recording-pipeline revision
of `mediasoupServer.ts`, parameterised by the stored remote SDP's media list
(`this.remoteSdp.media`).  When the RTP payload list is empty or absent, the
source's guard interpolates `mediaSection.rtp[0].codec` into the error
message; `rtp[0]` is `undefined` on that branch, so reading `.codec` throws
a `TypeError` before the intended `Error` is constructed — modelled as
`.error .typeError`. -/
def extractRtpParameters (remoteMedia : List MediaSection) (sec : MediaSection) :
    Except JsError RtpParameters :=
  match sec.rtp.getD [] with
  | [] => .error .typeError
  | e :: es =>
    .ok
      { mid := sec.mid
        codecs := (e :: es).map (buildCodec (findKindIn remoteMedia sec) sec)
        headerExtensions := buildHeaderExtensions sec
        encodings := [{ ssrc := ssrcOf sec }]
        rtcp := { cname := cnameOf sec } }

/-- The codec-support check of `receiveTrack` (wrtc revision):
`rtpParameters.codecs.some(codec => (kind === 'video' && codec.mimeType.toLowerCase() === 'video/vp8') || (kind === 'audio' && codec.mimeType.toLowerCase() === 'audio/opus'))`. -/
def isCodecSupported (kind : String) (codecs : List RtpCodec) : Bool :=
  codecs.any (fun c =>
    (kind == "video" && strToLower c.mimeType == "video/vp8") ||
    (kind == "audio" && strToLower c.mimeType == "audio/opus"))

/-- The media-section selection of `receiveTrack` (wrtc revision):
`remoteSdp.media.filter(m => m.type === track.kind)` then `[0]`. -/
def selectMediaSection (kind : String) (remoteMedia : List MediaSection) :
    Option MediaSection :=
  (remoteMedia.filter (fun m => m.type == kind)).head?

/-- The RTP-parameter derivation of `receiveTrack` (wrtc revision of
`mediasoupServer.ts`) for the selected media section: fail with a typed
error if its RTP payload list is empty or absent, build the codec list,
fail with the unsupported-codec error when the kind-specific check rejects
every built codec, else return the full RtpParameters passed to `produce`. -/
def receiveTrackFromSection (kind : String) (media : MediaSection) :
    Except JsError RtpParameters :=
  match media.rtp.getD [] with
  | [] => .error (.noRtpParameters kind)
  | e :: es =>
    if isCodecSupported kind ((e :: es).map (buildCodec media.type media)) then
      .ok
        { mid := media.mid
          codecs := (e :: es).map (buildCodec media.type media)
          headerExtensions := buildHeaderExtensions media
          encodings := [{ ssrc := ssrcOf media }]
          rtcp := { cname := cnameOf media } }
    else
      .error (.unsupportedCodec kind)

/-- Selection step of the same derivation: the first media section of the
track's kind feeds `receiveTrackFromSection`; no section at all is the
typed not-found failure. -/
def receiveTrackRtpParameters (kind : String) (remoteMedia : List MediaSection) :
    Except JsError RtpParameters :=
  match selectMediaSection kind remoteMedia with
  | none => .error (.noMediaSection kind)
  | some media => receiveTrackFromSection kind media

/-! ### Server state and socket handlers -/

/-- A stored viewer transport.  `connectedDtls` records the DTLS parameters
of a completed `connect` handshake (`none` = still New). -/
structure TransportEntry where
  id : String
  connectedDtls : Option String
deriving DecidableEq, Repr

/-- A stored consumer.  `created` is the initial paused state. -/
inductive ConsumerState where
  | created
  | active
deriving DecidableEq, Repr

structure ConsumerEntry where
  id : String
  producerId : String
  state : ConsumerState
deriving DecidableEq, Repr

/-- The mutable entity maps of the `MediasoupServer` class that the
signaling handlers read and write. -/
structure ServerState where
  producers : List String
  consumers : List ConsumerEntry
  transports : List TransportEntry
deriving DecidableEq, Repr

/-- A push event emitted to all connected clients (`this.io.emit`). -/
inductive OutEvent where
  | newProducer (id : String)
deriving DecidableEq, Repr

/-- The result handed to a socket callback: `{status:'success'}` or
`{error: message}`. -/
inductive CallbackResult where
  | success
  | failure (e : JsError)
deriving DecidableEq, Repr

/-- Method `addProducer`: insert into `this.producers`, then emit `newProducer`.
The returned pair makes the order explicit — the event is produced from a
state in which the insertion has already happened. -/
def addProducer (st : ServerState) (id : String) : ServerState × OutEvent :=
  ({ st with producers := st.producers ++ [id] }, .newProducer id)

/-- The `getProducers` handler: `Array.from(this.producers.values()).map(p => p.id)`. -/
def getProducers (st : ServerState) : List String :=
  st.producers

/-- Source: `this.transports.get(transportId)`. -/
def findTransport (st : ServerState) (tid : String) : Option TransportEntry :=
  st.transports.find? (fun t => t.id == tid)

/-- Modelled from the spec: the `transport.connect({dtlsParameters})` call is
delegated to the external SFU engine (mediasoup), whose code is not part of
this repository.  Per §4.3 the first call performs the handshake and
transitions New→Connected; a repeated call with identical parameters is a
no-op success and a repeated call with different parameters fails with
TransportAlreadyConnectedError. -/
def transportConnectExternal (t : TransportEntry) (dtls : String) :
    Except JsError TransportEntry :=
  match t.connectedDtls with
  | none => .ok { t with connectedDtls := some dtls }
  | some p => if p == dtls then .ok t else .error .transportAlreadyConnected

/-- The `transportConnect` socket handler: look up the transport (unknown id
throws the not-found error, mapped to an error callback), delegate the
handshake, ack with `{status:'success'}`. -/
def transportConnect (st : ServerState) (tid : String) (dtls : String) :
    ServerState × CallbackResult :=
  match findTransport st tid with
  | none => (st, .failure (.transportNotFound tid))
  | some t =>
    match transportConnectExternal t dtls with
    | .error e => (st, .failure e)
    | .ok t' =>
      ({ st with transports := st.transports.map (fun x => if x.id == tid then t' else x) },
        .success)

/-- The `consume` socket handler: `router.canConsume` (external engine,
passed as a boolean oracle), transport lookup, then
`transport.consume({producerId, rtpCapabilities, paused: true})` — the
stored consumer always starts in the paused `created` state. -/
def consumeHandler (st : ServerState) (tid pid cid : String) (canConsume : Bool) :
    ServerState × CallbackResult :=
  if canConsume then
    match findTransport st tid with
    | none => (st, .failure (.transportNotFound tid))
    | some _ =>
      ({ st with consumers := st.consumers ++ [{ id := cid, producerId := pid, state := .created }] },
        .success)
  else
    (st, .failure .cannotConsume)

/-- Modelled from the spec: `consumer.resume()` is delegated to the external
SFU engine.  Per §4.2 it transitions Created→Active and is a no-op on an
already Active consumer. -/
def consumerResumeExternal (c : ConsumerEntry) : ConsumerEntry :=
  { c with state := .active }

/-- Source: `this.consumers.get(consumerId)`. -/
def findConsumer (st : ServerState) (cid : String) : Option ConsumerEntry :=
  st.consumers.find? (fun c => c.id == cid)

/-- The `consumerResume` socket handler: look up the consumer (unknown id
throws the not-found error), resume it, ack with success. -/
def consumerResume (st : ServerState) (cid : String) :
    ServerState × CallbackResult :=
  match findConsumer st cid with
  | none => (st, .failure (.consumerNotFound cid))
  | some _ =>
    ({ st with consumers := st.consumers.map (fun x => if x.id == cid then consumerResumeExternal x else x) },
      .success)

/-- Method `receiveTrack` at the server level (wrtc revision): derive the RTP
parameters from the stored remote SDP; on any failure the error propagates
before `produce`/`addProducer` run, so the producer store is untouched.  On
success the producer is created and `addProducer` inserts it and emits the
`newProducer` push. -/
def receiveTrack (st : ServerState) (kind : String) (remoteMedia : List MediaSection)
    (newId : String) : ServerState × Except JsError OutEvent :=
  match receiveTrackRtpParameters kind remoteMedia with
  | .error e => (st, .error e)
  | .ok _ =>
    let (st', ev) := addProducer st newId
    (st', .ok ev)

/-- The socket operations that can run between an `addProducer` and a later
`getProducers` observation, with their state effects as written in
`setupSocketIO` (no handler ever deletes a producer; the `producerclose` /
`transportclose` consumer listeners delete consumers only). -/
inductive ServerOp where
  | addProducerOp (id : String)
  | createWebRtcTransportOp (id : String)
  | transportConnectOp (tid dtls : String)
  | consumeOp (tid pid cid : String) (canConsume : Bool)
  | consumerResumeOp (cid : String)
  | consumerClosedOp (cid : String)
  | disconnectOp
deriving DecidableEq, Repr

/-- One step of the server: apply a socket operation to the state. -/
def applyOp (st : ServerState) : ServerOp → ServerState
  | .addProducerOp id => (addProducer st id).1
  | .createWebRtcTransportOp id =>
    { st with transports := st.transports ++ [{ id := id, connectedDtls := none }] }
  | .transportConnectOp tid dtls => (transportConnect st tid dtls).1
  | .consumeOp tid pid cid canConsume => (consumeHandler st tid pid cid canConsume).1
  | .consumerResumeOp cid => (consumerResume st cid).1
  | .consumerClosedOp cid =>
    { st with consumers := st.consumers.filter (fun c => c.id != cid) }
  | .disconnectOp => st

/-- Apply a sequence of socket operations in order. -/
def applyOps (st : ServerState) (ops : List ServerOp) : ServerState :=
  ops.foldl applyOp st

/-! ### Recording pipeline -/

/-- The recording-related mutable state of the `MediasoupServer` class:
`usedPorts: Set<number>` and `ffmpegProcesses: Map<string, ChildProcess>`
(processes keyed by consumer id). -/
structure RecState where
  usedPorts : List Nat
  ffmpegProcesses : List String
deriving DecidableEq, Repr

/-- The scan of `getAvailablePort`: starting at `start`, increment while the
port is in `usedPorts`.  The source's `while` loop needs no fuel because the
used set is finite; `usedPorts.length + 1` probes always suffice. -/
def firstFreeAux (used : List Nat) : Nat → Nat → Nat
  | start, 0 => start
  | start, fuel + 1 => if start ∈ used then firstFreeAux used (start + 1) fuel else start

/-- Method `getAvailablePort()`: lowest integer ≥ 10000 not in `usedPorts`, which is
then added to `usedPorts`. -/
def getAvailablePort (used : List Nat) : Nat × List Nat :=
  let p := firstFreeAux used 10000 (used.length + 1)
  (p, used ++ [p])

/-- Running `k` successive allocations with no intervening release: the list of
ports handed out and the final used set. -/
def allocPorts : Nat → List Nat → List Nat × List Nat
  | 0, used => ([], used)
  | k + 1, used =>
    ((getAvailablePort used).1 :: (allocPorts k (getAvailablePort used).2).1,
      (allocPorts k (getAvailablePort used).2).2)

/-- The ffmpeg `close` listener installed by `startFFmpegRecording` (also
reached on the timeout/no-data kill paths, which terminate the process and
so fire `close`): it deletes the process map entry for the consumer — and
touches nothing else; in particular `usedPorts` is left as it was. -/
def onFfmpegClose (st : RecState) (consumerId : String) : RecState :=
  { st with ffmpegProcesses := st.ffmpegProcesses.filter (fun c => c != consumerId) }

/-- Method `cleanupFFmpegProcesses()` (run from `shutdown`): kill every process,
clear the process map and clear the whole port set at once. -/
def cleanupFFmpegProcesses (_st : RecState) : RecState :=
  { usedPorts := [], ffmpegProcesses := [] }

/-- The first encoding's ssrc when truthy, as tested by
`if (encoding?.ssrc)` in `createSDPForFFmpeg`. -/
def truthyFirstSsrc (p : RtpParameters) : Option Nat :=
  match p.encodings.head? with
  | some e =>
    match e.ssrc with
    | some s => if s = 0 then none else some s
    | none => none
  | none => none

/-- Method `createSDPForFFmpeg({rtpParameters, localIp, localPort})`: the session
descriptor handed to ffmpeg.  `rtpParameters.codecs[0]` is read
unconditionally, so an empty codec list throws a `TypeError`; the two
halves of the first codec's mimeType come from `split('/')` (a missing half
interpolates as the string `"undefined"`); the `a=ssrc` line is appended only
when the first encoding's ssrc is truthy; the lines are joined with `'\n'`
and a final `'\n'` is appended. -/
def createSDPForFFmpeg (p : RtpParameters) (localIp : String) (localPort : Nat) :
    Except JsError String :=
  match p.codecs.head? with
  | none => .error .typeError
  | some codec =>
    let parts := splitSlash codec.mimeType
    let mt := (parts.get? 0).getD "undefined"
    let cn := (parts.get? 1).getD "undefined"
    let base := ["v=0",
      "o=- 0 0 IN IP4 127.0.0.1",
      "s=FFmpeg",
      "c=IN IP4 " ++ localIp,
      "t=0 0",
      "m=" ++ mt ++ " " ++ toString localPort ++ " RTP/AVP " ++ toString codec.payloadType,
      "a=recvonly",
      "a=rtpmap:" ++ toString codec.payloadType ++ " " ++ cn ++ "/" ++ toString codec.clockRate]
    let lines :=
      match truthyFirstSsrc p with
      | some s => base ++ ["a=ssrc:" ++ toString s ++ " cname:ffmpeg"]
      | none => base
    .ok (String.intercalate "\n" lines ++ "\n")

/-! ### Spec-side definitions (worded from the claims, for comparison) -/

/-- Claim C1's description of one built Codec descriptor for a codec entry:
mimeType is the section kind `/` codec name, payloadType is the entry's
payload type, clockRate defaults to 0 when the rate is absent, channels
defaults to 1 when the channel count is absent, parameters are parsed from
the format-parameters string whose payload type matches (empty otherwise),
and rtcpFeedback is exactly the feedback entries whose payload type
matches, each reduced to `{type, parameter}` with parameter defaulting to
the empty string. -/
def codecClaimC1 (kind : String) (sec : MediaSection) (entry : RtpCodecEntry)
    (c : RtpCodec) : Prop :=
  c.mimeType = kind ++ "/" ++ entry.codec ∧
  c.payloadType = entry.payload ∧
  (entry.rate = none → c.clockRate = 0) ∧
  (entry.encoding = none → c.channels = 1) ∧
  c.parameters = (match (sec.fmtp.getD []).find? (fun f => f.payload == entry.payload) with
                  | some f => parseParams f.config
                  | none => []) ∧
  c.rtcpFeedback = ((sec.rtcpFb.getD []).filter (fun fb => fb.payload == entry.payload)).map
      (fun fb => { type := fb.type, parameter := fb.subtype.getD "" })

/-- The allowlist named by claim C3. -/
def claimC3Allowlist : List String := ["video/VP8", "video/H264", "audio/opus"]

/-- The kind-specific acceptance condition actually implemented by the
codec-support check: video tracks must offer `video/vp8` and audio tracks
`audio/opus` (mimeType compared case-insensitively). -/
def allowedByCode (kind : String) (c : RtpCodec) : Prop :=
  (kind = "video" ∧ strToLower c.mimeType = "video/vp8") ∨
  (kind = "audio" ∧ strToLower c.mimeType = "audio/opus")

/-- The recording descriptor exactly as claim C8 words it: the same lines,
with the `a=ssrc` line present if and only if the first encoding carries an
SSRC — any SSRC, including 0. -/
def sdpPerClaimC8 (p : RtpParameters) (localIp : String) (localPort : Nat) : String :=
  match p.codecs.head? with
  | none => ""
  | some codec =>
    let parts := splitSlash codec.mimeType
    let mt := (parts.get? 0).getD ""
    let cn := (parts.get? 1).getD ""
    let base := ["v=0",
      "o=- 0 0 IN IP4 127.0.0.1",
      "s=FFmpeg",
      "c=IN IP4 " ++ localIp,
      "t=0 0",
      "m=" ++ mt ++ " " ++ toString localPort ++ " RTP/AVP " ++ toString codec.payloadType,
      "a=recvonly",
      "a=rtpmap:" ++ toString codec.payloadType ++ " " ++ cn ++ "/" ++ toString codec.clockRate]
    let lines :=
      match p.encodings.head? with
      | some e =>
        match e.ssrc with
        | some s => base ++ ["a=ssrc:" ++ toString s ++ " cname:ffmpeg"]
        | none => base
      | none => base
    String.intercalate "\n" lines ++ "\n"

/-! ### Concrete inputs used by witnesses and counterexamples -/

/-- The codec entry of the spec's worked example: VP8 at payload 96. -/
def vp8Entries : List RtpCodecEntry :=
  [{ payload := 96, codec := "VP8", rate := some 90000, encoding := none }]

/-- The spec's worked example: a video section with one VP8 codec at
payload 96, SSRC 1111, and feedback `nack` and `nack pli`. -/
def vp8Sec : MediaSection :=
  { type := "video", mid := some "0",
    rtp := some vp8Entries,
    fmtp := none,
    rtcpFb := some [{ payload := 96, type := "nack", subtype := none },
                    { payload := 96, type := "nack", subtype := some "pli" }],
    ssrcs := some [{ id := 1111, attr := "cname", value := some "heygen" }],
    ext := none }

/-- The RtpParameters the translator produces for `vp8Sec`. -/
def vp8Params : RtpParameters :=
  { mid := some "0",
    codecs := [{ mimeType := "video/VP8", payloadType := 96, clockRate := 90000,
                 channels := 1, parameters := [],
                 rtcpFeedback := [{ type := "nack", parameter := "" },
                                  { type := "nack", parameter := "pli" }] }],
    headerExtensions := [],
    encodings := [{ ssrc := some 1111 }],
    rtcp := { cname := "heygen" } }

/-- A video section whose RTP payload list is empty. -/
def emptyVideoSec : MediaSection :=
  { type := "video", mid := some "0", rtp := some [], fmtp := none,
    rtcpFb := none, ssrcs := none, ext := none }

/-- The codec entry of the C3 counterexample: H264 at payload 97. -/
def h264Entries : List RtpCodecEntry :=
  [{ payload := 97, codec := "H264", rate := some 90000, encoding := none }]

/-- A video section whose only codec is H264 — inside claim C3's allowlist,
outside the allowlist the code actually checks. -/
def h264Sec : MediaSection :=
  { type := "video", mid := some "0", rtp := some h264Entries, fmtp := none,
    rtcpFb := none, ssrcs := none, ext := none }

/-- An audio section carrying no SSRC attribute at all. -/
def noSsrcSec : MediaSection :=
  { type := "audio", mid := some "1",
    rtp := some [{ payload := 111, codec := "opus", rate := some 48000, encoding := some 2 }],
    fmtp := none, rtcpFb := none, ssrcs := none, ext := none }

/-- The RtpParameters the translator produces for `noSsrcSec`. -/
def noSsrcParams : RtpParameters :=
  { mid := some "1",
    codecs := [{ mimeType := "audio/opus", payloadType := 111, clockRate := 48000,
                 channels := 2, parameters := [], rtcpFeedback := [] }],
    headerExtensions := [],
    encodings := [{ ssrc := none }],
    rtcp := { cname := "" } }

/-- An opus codec descriptor used by the recording-descriptor examples. -/
def opusCodec : RtpCodec :=
  { mimeType := "audio/opus", payloadType := 111, clockRate := 48000,
    channels := 2, parameters := [], rtcpFeedback := [] }

/-- RtpParameters whose first encoding carries the SSRC 0 — present, but
falsy in the source's `if (encoding?.ssrc)` test. -/
def zeroSsrcParams : RtpParameters :=
  { mid := some "0",
    codecs := [opusCodec],
    headerExtensions := [],
    encodings := [{ ssrc := some 0 }],
    rtcp := { cname := "" } }

/-- A one-transport server state: `t1`, not yet connected. -/
def stT1 : ServerState :=
  { producers := [], consumers := [], transports := [{ id := "t1", connectedDtls := none }] }

/-- A server state with one connected transport `t1` and one producer `p1`. -/
def stC6 : ServerState :=
  { producers := ["p1"], consumers := [],
    transports := [{ id := "t1", connectedDtls := some "dtlsA" }] }

/-! ### Helper lemmas -/

theorem find?_decomp {α : Type} (p : α → Bool) (a : α) (l : List α)
    (h : l.find? p = some a) :
    ∃ pre post, l = pre ++ a :: post ∧ ∀ b ∈ pre, ¬ p b := by
  induction l with
  | nil => simp [List.find?] at h
  | cons x xs ih =>
    by_cases hx : p x
    · rw [List.find?_cons_of_pos _ hx] at h
      obtain rfl : x = a := by simpa using h
      exact ⟨[], xs, rfl, by simp⟩
    · rw [List.find?_cons_of_neg _ hx] at h
      obtain ⟨pre, post, heq, hpre⟩ := ih h
      refine ⟨x :: pre, post, by simp [heq], ?_⟩
      intro b hb
      rcases List.mem_cons.mp hb with rfl | hb2
      · exact hx
      · exact hpre b hb2

theorem find?_eq_head?_filter {α : Type} (p : α → Bool) (l : List α) :
    l.find? p = (l.filter p).head? := by
  induction l with
  | nil => rfl
  | cons x xs ih =>
    by_cases h : p x
    · simp [List.find?, List.filter, h]
    · simp only [List.find?, List.filter, h]
      simpa [h] using ih

theorem findKindIn_of_mem {remoteMedia : List MediaSection} {sec : MediaSection}
    (h : sec ∈ remoteMedia) : findKindIn remoteMedia sec = sec.type := by
  unfold findKindIn
  cases hf : remoteMedia.find? (fun m => decide (m = sec)) with
  | none =>
    rw [List.find?_eq_none] at hf
    have := hf sec h
    simp at this
  | some m =>
    have hp := List.find?_some (p := fun m => decide (m = sec)) hf
    have hm : m = sec := by simpa using hp
    rw [hm]

theorem isCodecSupported_iff (kind : String) (codecs : List RtpCodec) :
    isCodecSupported kind codecs = true ↔ ∃ c ∈ codecs, allowedByCode kind c := by
  simp [isCodecSupported, allowedByCode, List.any_eq_true, Bool.or_eq_true,
    Bool.and_eq_true, beq_iff_eq]

theorem forall₂_map_self {α β : Type} (R : α → β → Prop) (f : α → β) (l : List α)
    (h : ∀ a ∈ l, R a (f a)) : List.Forall₂ R l (l.map f) := by
  induction l with
  | nil => simp
  | cons x xs ih =>
    exact List.Forall₂.cons (h x (by simp)) (ih (fun a ha => h a (by simp [ha])))

theorem receiveTrack_eq_section {kind : String} {remoteMedia : List MediaSection}
    {media : MediaSection} (h : selectMediaSection kind remoteMedia = some media) :
    receiveTrackRtpParameters kind remoteMedia = receiveTrackFromSection kind media := by
  unfold receiveTrackRtpParameters
  rw [h]

theorem receiveTrackFromSection_cons {kind : String} {media : MediaSection}
    {e : RtpCodecEntry} {es : List RtpCodecEntry} (h : media.rtp = some (e :: es)) :
    receiveTrackFromSection kind media =
      if isCodecSupported kind ((e :: es).map (buildCodec media.type media)) then
        .ok
          { mid := media.mid
            codecs := (e :: es).map (buildCodec media.type media)
            headerExtensions := buildHeaderExtensions media
            encodings := [{ ssrc := ssrcOf media }]
            rtcp := { cname := cnameOf media } }
      else
        .error (.unsupportedCodec kind) := by
  unfold receiveTrackFromSection
  rw [h]
  rfl

theorem extractRtpParameters_cons {remoteMedia : List MediaSection} {sec : MediaSection}
    {e : RtpCodecEntry} {es : List RtpCodecEntry} (h : sec.rtp = some (e :: es)) :
    extractRtpParameters remoteMedia sec =
      .ok
        { mid := sec.mid
          codecs := (e :: es).map (buildCodec (findKindIn remoteMedia sec) sec)
          headerExtensions := buildHeaderExtensions sec
          encodings := [{ ssrc := ssrcOf sec }]
          rtcp := { cname := cnameOf sec } } := by
  unfold extractRtpParameters
  rw [h]
  rfl

/-! ### Claims -/

/-- C2: the claim states that a media section with an empty or absent RTP
payload list always fails with the typed NoCodecsError and that no untyped
crash while building the error is possible.  On the `extractRtpParameters`
path the source interpolates `mediaSection.rtp[0].codec` into the error
message; on the empty-list branch `rtp[0]` is `undefined`, so reading
`.codec` throws an untyped TypeError instead of the typed error.  The
parallel guard in the wrtc revision's `receiveTrack` (which uses
`track.kind` in the message) does produce the typed error, showing the
intent. -/
theorem C2_empty_codec_list_crashes :
    extractRtpParameters [emptyVideoSec] emptyVideoSec = .error .typeError ∧
    JsError.typeError ≠ JsError.noRtpParameters "video" ∧
    receiveTrackRtpParameters "video" [emptyVideoSec] = .error (.noRtpParameters "video") := by
  refine ⟨rfl, by decide, rfl⟩

/-- C3 counterexample: a video section whose only codec is H264.  Its built
descriptor's mimeType `video/H264` is in the claim's allowlist, so the
claim says translation must not fail with UnsupportedCodecError — but the
code rejects it, because its check only accepts `video/vp8` for video
tracks. -/
theorem C3_h264_counterexample :
    receiveTrackRtpParameters "video" [h264Sec] = .error (.unsupportedCodec "video") ∧
    (buildCodec h264Sec.type h264Sec
      { payload := 97, codec := "H264", rate := some 90000, encoding := none }).mimeType
      ∈ claimC3Allowlist := by
  refine ⟨by decide, by decide⟩

/-- C3 (amended): for a media section with at least one codec entry,
translation fails with UnsupportedCodecError exactly when no codec in the
final built list satisfies the kind-specific allowlist the code actually
checks — `video/vp8` (case-insensitively) for video tracks and `audio/opus`
for audio tracks; H264 is not accepted.  The check is performed against the
built codec descriptors. -/
theorem C3_unsupported_iff_built_list (kind : String) (remoteMedia : List MediaSection)
    (media : MediaSection) (e : RtpCodecEntry) (es : List RtpCodecEntry)
    (hsel : selectMediaSection kind remoteMedia = some media)
    (hrtp : media.rtp = some (e :: es)) :
    (receiveTrackRtpParameters kind remoteMedia = .error (.unsupportedCodec kind) ↔
      ∀ c ∈ (e :: es).map (buildCodec media.type media), ¬ allowedByCode kind c) := by
  rw [receiveTrack_eq_section hsel, receiveTrackFromSection_cons hrtp]
  by_cases hsupp : isCodecSupported kind ((e :: es).map (buildCodec media.type media)) = true
  · rw [if_pos hsupp]
    rw [isCodecSupported_iff] at hsupp
    obtain ⟨c, hc, hall⟩ := hsupp
    constructor
    · intro h
      exact absurd h (by simp)
    · intro h
      exact absurd hall (h c hc)
  · rw [if_neg hsupp]
    constructor
    · intro _ c hc hall
      exact hsupp ((isCodecSupported_iff kind _).mpr ⟨c, hc, hall⟩)
    · intro _
      rfl

/-- C3 witness: the amended equivalence instantiated at the H264 section. -/
theorem C3_unsupported_iff_built_list_witness :
    (receiveTrackRtpParameters "video" [h264Sec] = .error (.unsupportedCodec "video") ↔
      ∀ c ∈ ([{ payload := 97, codec := "H264", rate := some 90000, encoding := none }] :
          List RtpCodecEntry).map (buildCodec h264Sec.type h264Sec),
        ¬ allowedByCode "video" c) :=
  C3_unsupported_iff_built_list "video" [h264Sec] h264Sec
    { payload := 97, codec := "H264", rate := some 90000, encoding := none } []
    rfl rfl

/-- C4 counterexample: a successfully translated audio section with no SSRC
attribute at all still yields a non-empty encoding list (a singleton whose
entry has no ssrc), where the claim demands the empty list. -/
theorem C4_no_ssrc_counterexample :
    noSsrcSec.ssrcs = none ∧
    extractRtpParameters [noSsrcSec] noSsrcSec = .ok noSsrcParams ∧
    noSsrcParams.encodings ≠ [] := by
  refine ⟨rfl, rfl, by decide⟩

/-- C4 (amended): for every successfully translated media section the
encoding list is always a singleton; its single entry carries the id of the
section's first SSRC attribute when that id is present and nonzero (JS
truthiness), and carries no SSRC otherwise — it is never the empty list. -/
theorem C4_encodings_singleton (remoteMedia : List MediaSection) (sec : MediaSection)
    (p : RtpParameters) (h : extractRtpParameters remoteMedia sec = .ok p) :
    p.encodings = [{ ssrc := ssrcOf sec }] ∧ p.encodings ≠ [] := by
  unfold extractRtpParameters at h
  split at h
  · exact absurd h (by simp)
  · injection h with h
    rw [← h]
    exact ⟨rfl, by simp⟩

/-- C4 witness: the amended statement instantiated at the ssrc-less audio
section. -/
theorem C4_encodings_singleton_witness :
    noSsrcParams.encodings = [{ ssrc := ssrcOf noSsrcSec }] ∧ noSsrcParams.encodings ≠ [] :=
  C4_encodings_singleton [noSsrcSec] noSsrcSec noSsrcParams rfl

/-- C1: for every media section of the stored remote SDP with a non-empty
RTP payload list, the translator produces one Codec descriptor per codec
entry, in order, and each descriptor satisfies claim C1's itemised
description (`codecClaimC1`): mimeType = kind `/` codec name, the entry's
payload type, clockRate defaulting to 0 and channels to 1 when absent,
parameters from the payload-matching fmtp string (else empty), and exactly
the payload-matching feedback entries reduced to `{type, parameter}`. -/
theorem C1_codec_descriptors (remoteMedia : List MediaSection) (sec : MediaSection)
    (e : RtpCodecEntry) (es : List RtpCodecEntry)
    (hmem : sec ∈ remoteMedia) (hrtp : sec.rtp = some (e :: es)) :
    ∃ p, extractRtpParameters remoteMedia sec = .ok p ∧
      List.Forall₂ (codecClaimC1 sec.type sec) (e :: es) p.codecs := by
  refine ⟨_, extractRtpParameters_cons hrtp, ?_⟩
  show List.Forall₂ _ _ ((e :: es).map (buildCodec (findKindIn remoteMedia sec) sec))
  rw [findKindIn_of_mem hmem]
  refine forall₂_map_self _ _ _ ?_
  intro a _
  refine ⟨rfl, rfl, ?_, ?_, rfl, rfl⟩
  · intro h
    simp [buildCodec, jsOrNat, h]
  · intro h
    simp [buildCodec, jsOrNat, h]

/-- C1 witness: the spec's worked example — a video section with one VP8
codec at payload 96, SSRC 1111 and feedback `nack` / `nack pli` — both in
the general form and fully evaluated: the first codec is `video/VP8` at
payload 96 with feedback entries for nack and pli, and the encodings are
`[{ssrc: 1111}]`. -/
theorem C1_codec_descriptors_witness :
    (∃ p, extractRtpParameters [vp8Sec] vp8Sec = .ok p ∧
      List.Forall₂ (codecClaimC1 vp8Sec.type vp8Sec)
        ({ payload := 96, codec := "VP8", rate := some 90000, encoding := none } :: [])
        p.codecs) ∧
    extractRtpParameters [vp8Sec] vp8Sec = .ok vp8Params :=
  ⟨C1_codec_descriptors [vp8Sec] vp8Sec
      { payload := 96, codec := "VP8", rate := some 90000, encoding := none } []
      (by decide) rfl,
    by decide⟩

/-- C10: the media section used for a received track is the first section,
in remote-SDP order, whose type equals the track's kind: the wrtc
revision's `filter(...)[0]` selection coincides with the other revision's
first-match `find` (so two tracks of the same kind are translated from the
same section); any selected section is the first whose type matches; and a
track whose kind matches no section fails before any producer is created
(the state, in particular its producer store, is untouched). -/
theorem C10_first_matching_section (kind : String) (remoteMedia : List MediaSection) :
    (selectMediaSection kind remoteMedia = remoteMedia.find? (fun m => m.type == kind)) ∧
    (∀ media, selectMediaSection kind remoteMedia = some media →
      media.type = kind ∧
      ∃ pre post, remoteMedia = pre ++ media :: post ∧ ∀ m ∈ pre, m.type ≠ kind) ∧
    ((∀ m ∈ remoteMedia, m.type ≠ kind) →
      ∀ st newId, receiveTrack st kind remoteMedia newId =
        (st, .error (.noMediaSection kind))) := by
  have hsel : selectMediaSection kind remoteMedia = remoteMedia.find? (fun m => m.type == kind) := by
    unfold selectMediaSection
    exact (find?_eq_head?_filter _ _).symm
  refine ⟨hsel, ?_, ?_⟩
  · intro media hm
    rw [hsel] at hm
    have htype : media.type = kind := by simpa using List.find?_some hm
    obtain ⟨pre, post, heq, hpre⟩ := find?_decomp _ _ _ hm
    exact ⟨htype, pre, post, heq, fun m hmem => by simpa using hpre m hmem⟩
  · intro hnone st newId
    have hfil : remoteMedia.filter (fun m => m.type == kind) = [] :=
      List.filter_eq_nil_iff.mpr (fun m hm => by simpa using hnone m hm)
    have hselnone : selectMediaSection kind remoteMedia = none := by
      unfold selectMediaSection
      rw [hfil]
      rfl
    have hparams : receiveTrackRtpParameters kind remoteMedia = .error (.noMediaSection kind) := by
      unfold receiveTrackRtpParameters
      rw [hselnone]
    unfold receiveTrack
    rw [hparams]

/-- C10 witness: instantiated at a video track against a remote SDP whose
only section is audio (no matching section). -/
theorem C10_first_matching_section_witness :
    (selectMediaSection "video" [noSsrcSec] = [noSsrcSec].find? (fun m => m.type == "video")) ∧
    (∀ media, selectMediaSection "video" [noSsrcSec] = some media →
      media.type = "video" ∧
      ∃ pre post, [noSsrcSec] = pre ++ media :: post ∧ ∀ m ∈ pre, m.type ≠ "video") ∧
    ((∀ m ∈ [noSsrcSec], m.type ≠ "video") →
      ∀ st newId, receiveTrack st "video" [noSsrcSec] newId =
        (st, .error (.noMediaSection "video"))) :=
  C10_first_matching_section "video" [noSsrcSec]

/-- Helper: no socket operation removes an id from the producer store. -/
theorem applyOp_producer_mem (st : ServerState) (op : ServerOp) (id : String)
    (h : id ∈ st.producers) : id ∈ (applyOp st op).producers := by
  cases op with
  | addProducerOp i =>
    simp only [applyOp, addProducer]
    exact List.mem_append_left _ h
  | createWebRtcTransportOp i => exact h
  | transportConnectOp tid d =>
    show id ∈ ((transportConnect st tid d).1).producers
    unfold transportConnect
    split
    · exact h
    · split
      · exact h
      · exact h
  | consumeOp tid pid cid canConsume =>
    show id ∈ ((consumeHandler st tid pid cid canConsume).1).producers
    unfold consumeHandler
    split
    · split
      · exact h
      · exact h
    · exact h
  | consumerResumeOp cid =>
    show id ∈ ((consumerResume st cid).1).producers
    unfold consumerResume
    split
    · exact h
    · exact h
  | consumerClosedOp cid => exact h
  | disconnectOp => exact h

/-- Helper: producer-store membership is preserved by any operation
sequence. -/
theorem applyOps_producer_mem (st : ServerState) (ops : List ServerOp) (id : String)
    (h : id ∈ st.producers) : id ∈ (applyOps st ops).producers := by
  induction ops generalizing st with
  | nil => exact h
  | cons op ops ih => exact ih (applyOp st op) (applyOp_producer_mem st op id h)

/-- C9: `addProducer` inserts the producer into the store and only then
yields the `newProducer` push, so the push is emitted from a state that
already contains the producer; and since no handler ever removes a
producer, every `getProducers` snapshot taken after the push — after any
interleaving of further socket operations — contains the pushed id. -/
theorem C9_push_after_insert (st : ServerState) (id : String) :
    (addProducer st id).2 = .newProducer id ∧
    id ∈ (addProducer st id).1.producers ∧
    ∀ ops, id ∈ getProducers (applyOps (addProducer st id).1 ops) := by
  refine ⟨rfl, by simp [addProducer], ?_⟩
  intro ops
  exact applyOps_producer_mem _ ops id (by simp [addProducer])

/-- Helper: looking up by id after an id-preserving in-place update finds
the updated entry. -/
theorem find?_map_ite {α : Type} (p : α → Bool) (g : α → α) (l : List α) (a : α)
    (h : l.find? p = some a) (hg : p (g a) = true) :
    (l.map (fun x => if p x then g x else x)).find? p = some (g a) := by
  induction l with
  | nil => simp [List.find?] at h
  | cons x xs ih =>
    by_cases hx : p x = true
    · rw [List.find?_cons_of_pos _ hx] at h
      obtain rfl : x = a := by simpa using h
      simp only [List.map_cons, if_pos hx]
      exact List.find?_cons_of_pos _ hg
    · rw [List.find?_cons_of_neg _ hx] at h
      simp only [List.map_cons, if_neg hx]
      rw [List.find?_cons_of_neg _ hx]
      exact ih h

/-- Helper: replacing every transport of a given id by the same entry twice
is the same as doing it once. -/
theorem transports_update_idem (tid : String) (t' : TransportEntry) (l : List TransportEntry)
    (h : (t'.id == tid) = true) :
    (l.map (fun x => if x.id == tid then t' else x)).map
        (fun x => if x.id == tid then t' else x) =
      l.map (fun x => if x.id == tid then t' else x) := by
  rw [List.map_map]
  apply List.map_congr_left
  intro a _
  simp only [Function.comp_apply]
  by_cases hpa : (a.id == tid) = true
  · simp [hpa, h]
  · simp [hpa]

/-- Helper: resuming every consumer of a given id twice is the same as
doing it once (resume is idempotent on the stored entry). -/
theorem consumers_resume_idem (cid : String) (l : List ConsumerEntry) :
    (l.map (fun x => if x.id == cid then consumerResumeExternal x else x)).map
        (fun x => if x.id == cid then consumerResumeExternal x else x) =
      l.map (fun x => if x.id == cid then consumerResumeExternal x else x) := by
  rw [List.map_map]
  apply List.map_congr_left
  intro a _
  simp only [Function.comp_apply]
  by_cases hpa : (a.id == cid) = true
  · have hid : (consumerResumeExternal a).id = a.id := rfl
    simp [hid, hpa, consumerResumeExternal]
  · simp [hpa]

/-- Handler step: connect on an unknown transport id. -/
theorem transportConnect_none {st : ServerState} {tid d : String}
    (h : findTransport st tid = none) :
    transportConnect st tid d = (st, .failure (.transportNotFound tid)) := by
  simp only [transportConnect, h]

/-- Handler step: transport found and the external connect succeeds. -/
theorem transportConnect_ok {st : ServerState} {tid d : String} {t t' : TransportEntry}
    (h : findTransport st tid = some t) (hext : transportConnectExternal t d = .ok t') :
    transportConnect st tid d =
      ({ st with transports := (st.transports.map (fun x => if x.id == tid then t' else x)) },
        .success) := by
  simp only [transportConnect, h, hext]

/-- Handler step: transport found and the external connect fails. -/
theorem transportConnect_err {st : ServerState} {tid d : String} {t : TransportEntry}
    {e : JsError} (h : findTransport st tid = some t)
    (hext : transportConnectExternal t d = .error e) :
    transportConnect st tid d = (st, .failure e) := by
  simp only [transportConnect, h, hext]

/-- Handler step: consume with a known transport and a consumable producer
appends a freshly created (paused) consumer. -/
theorem consumeHandler_ok {st : ServerState} {tid : String} (pid cid : String)
    {t : TransportEntry} (h : findTransport st tid = some t) :
    consumeHandler st tid pid cid true =
      ({ st with consumers :=
          (st.consumers ++ [{ id := cid, producerId := pid, state := .created }]) },
        .success) := by
  simp only [consumeHandler, h, if_true]

/-- Handler step: resume on an unknown consumer id. -/
theorem consumerResume_none {st : ServerState} {cid : String}
    (h : findConsumer st cid = none) :
    consumerResume st cid = (st, .failure (.consumerNotFound cid)) := by
  simp only [consumerResume, h]

/-- Handler step: resume on a stored consumer activates it in place. -/
theorem consumerResume_found {st : ServerState} {cid : String} {c : ConsumerEntry}
    (h : findConsumer st cid = some c) :
    consumerResume st cid =
      ({ st with consumers := (st.consumers.map
          (fun x => if x.id == cid then consumerResumeExternal x else x)) },
        .success) := by
  simp only [consumerResume, h]

/-- C5: connecting an unknown transport id fails with the not-found error;
the first connect of a New transport succeeds and records the DTLS
parameters (Connected); a second connect with identical parameters is a
no-op success (state unchanged); and a second connect with different
parameters fails with the already-connected error, also leaving the state
unchanged.  The connect-state semantics delegated to the external SFU
engine are spec-modelled (`transportConnectExternal`). -/
theorem C5_transport_connect (st : ServerState) (tid d d' : String) (t : TransportEntry)
    (hfind : findTransport st tid = some t) (hnew : t.connectedDtls = none)
    (hne : d' ≠ d) :
    (∀ u : ServerState, findTransport u tid = none →
      transportConnect u tid d = (u, .failure (.transportNotFound tid))) ∧
    (transportConnect st tid d).2 = .success ∧
    findTransport (transportConnect st tid d).1 tid = some { t with connectedDtls := some d } ∧
    transportConnect (transportConnect st tid d).1 tid d =
      ((transportConnect st tid d).1, .success) ∧
    transportConnect (transportConnect st tid d).1 tid d' =
      ((transportConnect st tid d).1, .failure .transportAlreadyConnected) := by
  have hfind' : st.transports.find? (fun x => x.id == tid) = some t := hfind
  have hpt : (t.id == tid) = true := by
    have h0 := List.find?_some hfind'
    simpa using h0
  have hpt' : (({ t with connectedDtls := some d } : TransportEntry).id == tid) = true := hpt
  have hext : transportConnectExternal t d = .ok { t with connectedDtls := some d } := by
    unfold transportConnectExternal
    rw [hnew]
  have hcall := transportConnect_ok (d := d) hfind hext
  have hfind1 : findTransport (transportConnect st tid d).1 tid =
      some { t with connectedDtls := some d } := by
    rw [hcall]
    exact find?_map_ite (fun x => x.id == tid)
      (fun _ => { t with connectedDtls := some d }) st.transports t hfind' hpt'
  have hext1 : transportConnectExternal { t with connectedDtls := some d } d =
      .ok { t with connectedDtls := some d } := by
    unfold transportConnectExternal
    simp
  have hidem : ((transportConnect st tid d).1.transports.map
      (fun x => if x.id == tid then { t with connectedDtls := some d } else x)) =
      (transportConnect st tid d).1.transports := by
    rw [hcall]
    exact transports_update_idem tid { t with connectedDtls := some d } st.transports hpt'
  have hcall1 : transportConnect (transportConnect st tid d).1 tid d =
      ((transportConnect st tid d).1, .success) := by
    rw [transportConnect_ok hfind1 hext1, hidem]
  have hbne : (d == d') = false := by
    simp only [beq_eq_false_iff_ne, ne_eq]
    intro hh
    exact hne hh.symm
  have hext2 : transportConnectExternal { t with connectedDtls := some d } d' =
      .error .transportAlreadyConnected := by
    unfold transportConnectExternal
    simp [hbne]
  have hcall2 : transportConnect (transportConnect st tid d).1 tid d' =
      ((transportConnect st tid d).1, .failure .transportAlreadyConnected) :=
    transportConnect_err hfind1 hext2
  refine ⟨?_, by rw [hcall], hfind1, hcall1, hcall2⟩
  intro u hu
  exact transportConnect_none hu

/-- C5 witness: the four connect behaviours at a concrete one-transport
state. -/
theorem C5_transport_connect_witness :
    (∀ u : ServerState, findTransport u "t1" = none →
      transportConnect u "t1" "dtlsA" = (u, .failure (.transportNotFound "t1"))) ∧
    (transportConnect stT1 "t1" "dtlsA").2 = .success ∧
    findTransport (transportConnect stT1 "t1" "dtlsA").1 "t1" =
      some { id := "t1", connectedDtls := some "dtlsA" } ∧
    transportConnect (transportConnect stT1 "t1" "dtlsA").1 "t1" "dtlsA" =
      ((transportConnect stT1 "t1" "dtlsA").1, .success) ∧
    transportConnect (transportConnect stT1 "t1" "dtlsA").1 "t1" "dtlsB" =
      ((transportConnect stT1 "t1" "dtlsA").1, .failure .transportAlreadyConnected) :=
  C5_transport_connect stT1 "t1" "dtlsA" "dtlsB" { id := "t1", connectedDtls := none }
    rfl rfl (by decide)

/-- C6: a successful consume stores a consumer that starts in the paused
`created` state; the first resume transitions it to Active with a success
ack; the second resume is a no-op success leaving the state unchanged (and
the consumer Active); and resume on an id with no stored consumer fails
with the not-found error.  The Created→Active/no-op semantics of the
external engine's `consumer.resume()` are spec-modelled
(`consumerResumeExternal`). -/
theorem C6_consumer_lifecycle (st : ServerState) (tid pid cid : String) (t : TransportEntry)
    (hfind : findTransport st tid = some t) (hfresh : findConsumer st cid = none) :
    (∀ u : ServerState, findConsumer u cid = none →
      consumerResume u cid = (u, .failure (.consumerNotFound cid))) ∧
    consumeHandler st tid pid cid true =
      ({ st with consumers :=
          (st.consumers ++ [{ id := cid, producerId := pid, state := .created }]) },
        .success) ∧
    (consumerResume (consumeHandler st tid pid cid true).1 cid).2 = .success ∧
    findConsumer (consumerResume (consumeHandler st tid pid cid true).1 cid).1 cid =
      some { id := cid, producerId := pid, state := .active } ∧
    consumerResume (consumerResume (consumeHandler st tid pid cid true).1 cid).1 cid =
      ((consumerResume (consumeHandler st tid pid cid true).1 cid).1, .success) := by
  have hf : st.consumers.find? (fun c => c.id == cid) = none := hfresh
  have hcons := consumeHandler_ok pid cid hfind
  have hfc1 : findConsumer (consumeHandler st tid pid cid true).1 cid =
      some { id := cid, producerId := pid, state := .created } := by
    rw [hcons]
    show (st.consumers ++ ([{ id := cid, producerId := pid, state := .created }] :
        List ConsumerEntry)).find? (fun c => c.id == cid) = _
    rw [List.find?_append, hf]
    simp [List.find?]
  have hres := consumerResume_found hfc1
  have hfc1' : ((consumeHandler st tid pid cid true).1.consumers).find?
      (fun c => c.id == cid) = some { id := cid, producerId := pid, state := .created } := hfc1
  have hfc2 : findConsumer (consumerResume (consumeHandler st tid pid cid true).1 cid).1 cid =
      some { id := cid, producerId := pid, state := .active } := by
    rw [hres]
    exact find?_map_ite (fun c => c.id == cid) consumerResumeExternal
      (consumeHandler st tid pid cid true).1.consumers
      { id := cid, producerId := pid, state := .created } hfc1' (by simp [consumerResumeExternal])
  have hidem : ((consumerResume (consumeHandler st tid pid cid true).1 cid).1.consumers.map
      (fun x => if x.id == cid then consumerResumeExternal x else x)) =
      (consumerResume (consumeHandler st tid pid cid true).1 cid).1.consumers := by
    rw [hres]
    exact consumers_resume_idem cid (consumeHandler st tid pid cid true).1.consumers
  have hres2 : consumerResume (consumerResume (consumeHandler st tid pid cid true).1 cid).1 cid =
      ((consumerResume (consumeHandler st tid pid cid true).1 cid).1, .success) := by
    rw [consumerResume_found hfc2, hidem]
  exact ⟨fun u hu => consumerResume_none hu, hcons, by rw [hres], hfc2, hres2⟩

/-- C6 witness: the full create–resume–resume sequence at a concrete
one-transport state with a fresh consumer id. -/
theorem C6_consumer_lifecycle_witness :
    (∀ u : ServerState, findConsumer u "c1" = none →
      consumerResume u "c1" = (u, .failure (.consumerNotFound "c1"))) ∧
    consumeHandler stC6 "t1" "p1" "c1" true =
      ({ stC6 with consumers := [{ id := "c1", producerId := "p1", state := .created }] },
        .success) ∧
    (consumerResume (consumeHandler stC6 "t1" "p1" "c1" true).1 "c1").2 = .success ∧
    findConsumer (consumerResume (consumeHandler stC6 "t1" "p1" "c1" true).1 "c1").1 "c1" =
      some { id := "c1", producerId := "p1", state := .active } ∧
    consumerResume (consumerResume (consumeHandler stC6 "t1" "p1" "c1" true).1 "c1").1 "c1" =
      ((consumerResume (consumeHandler stC6 "t1" "p1" "c1" true).1 "c1").1, .success) :=
  C6_consumer_lifecycle stC6 "t1" "p1" "c1" { id := "t1", connectedDtls := some "dtlsA" }
    rfl rfl

/-- C9 witness: instantiated at the empty server state and producer `p1`. -/
theorem C9_push_after_insert_witness :
    (addProducer { producers := [], consumers := [], transports := [] } "p1").2 =
      .newProducer "p1" ∧
    "p1" ∈ (addProducer { producers := [], consumers := [], transports := [] } "p1").1.producers ∧
    ∀ ops, "p1" ∈ getProducers
      (applyOps (addProducer { producers := [], consumers := [], transports := [] } "p1").1 ops) :=
  C9_push_after_insert { producers := [], consumers := [], transports := [] } "p1"

/-- Helper: among `used.length + 1` consecutive candidates there is always
a port outside `used` (pigeonhole). -/
theorem exists_free_port (used : List Nat) (start : Nat) :
    ∃ q, start ≤ q ∧ q < start + (used.length + 1) ∧ q ∉ used := by
  by_contra hcon
  push_neg at hcon
  have hsub : Finset.Ico start (start + (used.length + 1)) ⊆ used.toFinset := by
    intro q hq
    rw [Finset.mem_Ico] at hq
    simpa using hcon q hq.1 hq.2
  have h1 := Finset.card_le_card hsub
  rw [Nat.card_Ico] at h1
  have h2 := used.toFinset_card_le
  omega

/-- Helper: the port scan returns the least value at or above `start` that
is outside `used`, provided such a value lies within `fuel` probes. -/
theorem firstFreeAux_spec (used : List Nat) :
    ∀ fuel start, (∃ q, start ≤ q ∧ q < start + fuel ∧ q ∉ used) →
      firstFreeAux used start fuel ∉ used ∧
      start ≤ firstFreeAux used start fuel ∧
      ∀ q, start ≤ q → q < firstFreeAux used start fuel → q ∈ used := by
  intro fuel
  induction fuel with
  | zero =>
    intro start h
    obtain ⟨q, h1, h2, _⟩ := h
    omega
  | succ f ih =>
    intro start h
    by_cases hs : start ∈ used
    · have hstep : firstFreeAux used start (f + 1) = firstFreeAux used (start + 1) f := by
        simp [firstFreeAux, hs]
      obtain ⟨q, h1, h2, h3⟩ := h
      have hq1 : start + 1 ≤ q := by
        rcases Nat.eq_or_lt_of_le h1 with rfl | hlt
        · exact absurd hs h3
        · omega
      obtain ⟨ha, hb, hc⟩ := ih (start + 1) ⟨q, hq1, by omega, h3⟩
      rw [hstep]
      refine ⟨ha, by omega, ?_⟩
      intro r hr1 hr2
      rcases Nat.eq_or_lt_of_le hr1 with rfl | hlt
      · exact hs
      · exact hc r (by omega) hr2
    · have hstep : firstFreeAux used start (f + 1) = start := by
        simp [firstFreeAux, hs]
      rw [hstep]
      exact ⟨hs, Nat.le_refl _, fun q h1 h2 => absurd (Nat.lt_of_le_of_lt h1 h2) (Nat.lt_irrefl _)⟩

/-- Helper: the allocator's full specification — the returned port is free,
at least 10000, every smaller candidate at or above 10000 is in use, and
the used set grows by exactly that port. -/
theorem getAvailablePort_spec (used : List Nat) :
    (getAvailablePort used).1 ∉ used ∧
    10000 ≤ (getAvailablePort used).1 ∧
    (∀ q, 10000 ≤ q → q < (getAvailablePort used).1 → q ∈ used) ∧
    (getAvailablePort used).2 = used ++ [(getAvailablePort used).1] := by
  obtain ⟨ha, hb, hc⟩ :=
    firstFreeAux_spec used (used.length + 1) 10000 (exists_free_port used 10000)
  exact ⟨ha, hb, hc, rfl⟩

/-- Helper: `k` allocations hand out pairwise distinct fresh ports and
the final used set is the old one extended by exactly those ports. -/
theorem allocPorts_spec (k : Nat) :
    ∀ used, (allocPorts k used).2 = used ++ (allocPorts k used).1 ∧
      (∀ p ∈ (allocPorts k used).1, p ∉ used) ∧
      (allocPorts k used).1.Nodup ∧
      (allocPorts k used).1.length = k := by
  induction k with
  | zero =>
    intro used
    exact ⟨(List.append_nil used).symm, by simp [allocPorts], List.nodup_nil, rfl⟩
  | succ n ih =>
    intro used
    obtain ⟨hfree, _, _, hgrow⟩ := getAvailablePort_spec used
    obtain ⟨ha, hb, hc, hd⟩ := ih (getAvailablePort used).2
    have hgrow' : (getAvailablePort used).2 = used ++ [(getAvailablePort used).1] := hgrow
    refine ⟨?_, ?_, ?_, ?_⟩
    · show (allocPorts n (getAvailablePort used).2).2 =
        used ++ ((getAvailablePort used).1 :: (allocPorts n (getAvailablePort used).2).1)
      rw [ha, hgrow']
      simp
    · intro p hp
      rcases List.mem_cons.mp hp with rfl | hp2
      · exact hfree
      · intro hmem
        exact hb p hp2 (by rw [hgrow']; exact List.mem_append_left _ hmem)
    · refine List.nodup_cons.mpr ⟨?_, hc⟩
      intro hmem
      exact hb _ hmem (by rw [hgrow']; simp)
    · show ((getAvailablePort used).1 :: (allocPorts n (getAvailablePort used).2).1).length = n + 1
      rw [List.length_cons, hd]

/-- C7 counterexample: after one allocation the pool holds port 10000; the
job-completion handler (the ffmpeg `close` listener) removes the process
entry but does not release the port — the claim's "released back to the
pool exactly once when its recording job completes" fails, and the pool
does not return to its free state. -/
theorem C7_no_release_counterexample :
    (getAvailablePort []).1 = 10000 ∧
    (onFfmpegClose { usedPorts := (getAvailablePort []).2, ffmpegProcesses := ["c1"] }
        "c1").ffmpegProcesses = [] ∧
    (onFfmpegClose { usedPorts := (getAvailablePort []).2, ffmpegProcesses := ["c1"] }
        "c1").usedPorts = [10000] ∧
    (onFfmpegClose { usedPorts := (getAvailablePort []).2, ffmpegProcesses := ["c1"] }
        "c1").usedPorts ≠ [] := by
  refine ⟨rfl, rfl, rfl, by decide⟩

/-- C7 (amended): the allocator always returns the lowest free integer at
or above 10000 (the range has no upper bound in the code) and marks it
used, so `k` allocations without intervening releases yield `k` pairwise
distinct ports; but no port is released when a recording job completes,
fails or times out — the ffmpeg close handler leaves the used-port set
unchanged — and the whole set is only cleared in bulk by
`cleanupFFmpegProcesses` at shutdown. -/
theorem C7_port_allocator (used : List Nat) (k : Nat) (st : RecState) (cid : String) :
    ((getAvailablePort used).1 ∉ used ∧
      10000 ≤ (getAvailablePort used).1 ∧
      (∀ q, 10000 ≤ q → q < (getAvailablePort used).1 → q ∈ used) ∧
      (getAvailablePort used).2 = used ++ [(getAvailablePort used).1]) ∧
    ((allocPorts k used).1.Nodup ∧ (allocPorts k used).1.length = k) ∧
    (onFfmpegClose st cid).usedPorts = st.usedPorts ∧
    (cleanupFFmpegProcesses st).usedPorts = [] ∧
    (cleanupFFmpegProcesses st).ffmpegProcesses = [] := by
  obtain ⟨_, _, hc, hd⟩ := allocPorts_spec k used
  exact ⟨getAvailablePort_spec used, ⟨hc, hd⟩, rfl, rfl, rfl⟩

/-- C7 witness: the allocator facts instantiated at a pool that already
holds ports 10000 and 10002 (the next allocation must return 10001), with
three further allocations, and a concrete recording state. -/
theorem C7_port_allocator_witness :
    (((getAvailablePort [10000, 10002]).1 ∉ [10000, 10002] ∧
      10000 ≤ (getAvailablePort [10000, 10002]).1 ∧
      (∀ q, 10000 ≤ q → q < (getAvailablePort [10000, 10002]).1 → q ∈ [10000, 10002]) ∧
      (getAvailablePort [10000, 10002]).2 =
        [10000, 10002] ++ [(getAvailablePort [10000, 10002]).1]) ∧
    ((allocPorts 3 [10000, 10002]).1.Nodup ∧ (allocPorts 3 [10000, 10002]).1.length = 3) ∧
    (onFfmpegClose { usedPorts := [10000], ffmpegProcesses := ["c1"] } "c1").usedPorts =
      ({ usedPorts := [10000], ffmpegProcesses := ["c1"] } : RecState).usedPorts ∧
    (cleanupFFmpegProcesses { usedPorts := [10000], ffmpegProcesses := ["c1"] }).usedPorts = [] ∧
    (cleanupFFmpegProcesses { usedPorts := [10000], ffmpegProcesses := ["c1"] }).ffmpegProcesses
      = []) ∧
    (getAvailablePort [10000, 10002]).1 = 10001 :=
  ⟨C7_port_allocator [10000, 10002] 3 { usedPorts := [10000], ffmpegProcesses := ["c1"] } "c1",
    by decide⟩

/-- C8 counterexample: RtpParameters whose first encoding carries the SSRC
0.  The claim says the `a=ssrc` line is present if and only if the first
encoding carries an SSRC, but the source's truthiness test drops SSRC 0,
so the produced descriptor differs from the claim's wording
(`sdpPerClaimC8`). -/
theorem C8_zero_ssrc_counterexample :
    (zeroSsrcParams.encodings.head?.bind (fun e => e.ssrc)) = some 0 ∧
    createSDPForFFmpeg zeroSsrcParams "127.0.0.1" 10000 ≠
      .ok (sdpPerClaimC8 zeroSsrcParams "127.0.0.1" 10000) := by
  refine ⟨rfl, by decide⟩

/-- C8 (amended): for RtpParameters with at least one codec, the recording
descriptor is the newline-joined lines (with a final newline) in exactly
the order v=0, o=- 0 0 IN IP4 127.0.0.1, s=FFmpeg, c=IN IP4 localIp,
t=0 0, m=mediaType port RTP/AVP payloadType, a=recvonly,
a=rtpmap:payloadType codecName/clockRate, followed by the
`a=ssrc:<ssrc> cname:ffmpeg` line if and only if the first encoding
carries a truthy (nonzero) SSRC, where mediaType and codecName are the two
halves of the first codec's mimeType. -/
theorem C8_sdp_layout (p : RtpParameters) (localIp : String) (localPort : Nat)
    (c : RtpCodec) (rest : List RtpCodec) (mt cn : String)
    (hc : p.codecs = c :: rest) (hsplit : splitSlash c.mimeType = [mt, cn]) :
    createSDPForFFmpeg p localIp localPort = .ok (String.intercalate "\n"
      (["v=0",
        "o=- 0 0 IN IP4 127.0.0.1",
        "s=FFmpeg",
        "c=IN IP4 " ++ localIp,
        "t=0 0",
        "m=" ++ mt ++ " " ++ toString localPort ++ " RTP/AVP " ++ toString c.payloadType,
        "a=recvonly",
        "a=rtpmap:" ++ toString c.payloadType ++ " " ++ cn ++ "/" ++ toString c.clockRate] ++
        (match truthyFirstSsrc p with
          | some s => ["a=ssrc:" ++ toString s ++ " cname:ffmpeg"]
          | none => [])) ++ "\n") := by
  unfold createSDPForFFmpeg
  rw [hc]
  show Except.ok (String.intercalate "\n" _ ++ "\n") = _
  rw [hsplit]
  cases hts : truthyFirstSsrc p with
  | none => rfl
  | some s => rfl

/-- C8 witness: the amended layout instantiated at the opus parameters with
SSRC 0 (whose truthy first SSRC is none, so no `a=ssrc` line appears). -/
theorem C8_sdp_layout_witness :
    createSDPForFFmpeg zeroSsrcParams "127.0.0.1" 10000 = .ok (String.intercalate "\n"
      (["v=0",
        "o=- 0 0 IN IP4 127.0.0.1",
        "s=FFmpeg",
        "c=IN IP4 " ++ "127.0.0.1",
        "t=0 0",
        "m=" ++ "audio" ++ " " ++ toString (10000 : Nat) ++ " RTP/AVP " ++
          toString opusCodec.payloadType,
        "a=recvonly",
        "a=rtpmap:" ++ toString opusCodec.payloadType ++ " " ++ "opus" ++ "/" ++
          toString opusCodec.clockRate] ++
        (match truthyFirstSsrc zeroSsrcParams with
          | some s => ["a=ssrc:" ++ toString s ++ " cname:ffmpeg"]
          | none => [])) ++ "\n") :=
  C8_sdp_layout zeroSsrcParams "127.0.0.1" 10000 opusCodec [] "audio" "opus" rfl (by decide)

end HeyGenBridge

